import Mathlib

/-!
Verification of the googleipmonitor repository core: the snapshot
extraction/diff engine (`monitor.py`), the history aggregator
(`services/aggregator_service.py`) and the nine-format firewall rule
generator (`generate_firewall_rules.py`), shallowly embedded in Lean.

Python sets of strings are modelled as duplicate-free lists (`List.dedup`
of the insertion-order list); `sorted` is modelled by insertion sort on
the string order; file-system I/O is abstracted away: functions receive
the already-loaded snapshot values that the Python code reads from disk,
and the wall-clock timestamp strings produced by `datetime.now()` are
passed as explicit arguments.
-/

namespace GIPM

/-- Lexicographic ascending sort on strings, modelling Python `sorted`. -/
def sortStr (l : List String) : List String :=
  List.insertionSort (· ≤ ·) l

/-- Python set difference `a - b` on duplicate-free lists. -/
def setDiff (a b : List String) : List String :=
  a.filter (fun x => !(b.contains x))

/-! ### Snapshot data model

A raw snapshot (`data/*.json` file) holds two optional provider
sub-documents `cloud` and `goog`, each a list of entries with optional
`ipv4Prefix` / `ipv6Prefix` string fields.  This model assumes the
prefix values are strings; a second model (`JVal` below) keeps the JSON
value type open to analyse non-string prefix values. -/

/-- One element of a provider's `prefixes` list. -/
structure Entry where
  ipv4Pfx : Option String
  ipv6Pfx : Option String
deriving DecidableEq

/-- One snapshot: the `cloud` and `goog` sub-documents, `none` when the
key is absent or null; a present sub-document is represented by its
`prefixes` list (`.get('prefixes', [])` defaults a missing list to `[]`). -/
structure SnapData where
  cloud : Option (List Entry)
  goog : Option (List Entry)
deriving DecidableEq

/-- The prefix strings one entry contributes, IPv4 field first, in the
order the Python loop visits them. -/
def entryVals (e : Entry) : List String :=
  (match e.ipv4Pfx with | some s => [s] | none => []) ++
  (match e.ipv6Pfx with | some s => [s] | none => [])

/-- All prefix strings of a snapshot in visit order (cloud then goog),
duplicates included. -/
def rawVals (d : SnapData) : List String :=
  (match d.cloud with | some es => (es.map entryVals).flatten | none => []) ++
  (match d.goog with | some es => (es.map entryVals).flatten | none => [])

/-- `GoogleIPMonitor.extract_prefixes` / `DataAggregatorService.extract_prefixes`:
the canonical prefix set of a snapshot, as a duplicate-free list. -/
def extractPrefixes (d : SnapData) : List String :=
  (rawVals d).dedup

/-! ### Snapshot differ (`GoogleIPMonitor.compare_data`) -/

/-- The comparison result dictionary.  In the bootstrap branch the
Python dict carries no `total_previous` key, hence the `Option`. -/
structure Delta where
  added : List String
  removed : List String
  total_current : Nat
  total_previous : Option Nat
  has_changes : Bool
deriving DecidableEq

/-- `GoogleIPMonitor.compare_data`: `none` models a falsy (`None`)
dataset, in which case the fixed bootstrap dictionary is returned. -/
def compare_data : Option SnapData → Option SnapData → Delta
  | some oldData, some newData =>
    let oldP := extractPrefixes oldData
    let newP := extractPrefixes newData
    let added := sortStr (setDiff newP oldP)
    let removed := sortStr (setDiff oldP newP)
    { added := added
      removed := removed
      total_current := newP.length
      total_previous := some oldP.length
      has_changes := decide (0 < added.length) || decide (0 < removed.length) }
  | _, _ =>
    { added := []
      removed := []
      total_current := 0
      total_previous := none
      has_changes := false }

/-! ### History aggregator (`DataAggregatorService`)

`load_historical_data` reads the sorted list of `data/*.json` files and
keeps the last `days` of them via the Python slice `data_files[-days:]`;
here the already-loaded `(date, data)` list stands for the file list and
the slice semantics (including its behaviour for `days ≤ 0`) is
reproduced exactly. -/

/-- `DataAggregatorService.separate_ipv4_ipv6`: split a prefix set by
presence of a colon and sort each part. -/
def separate_ipv4_ipv6 (pfxs : List String) : List String × List String :=
  (sortStr (pfxs.filter (fun ip => !(ip.contains ':'))),
   sortStr (pfxs.filter (fun ip => ip.contains ':')))

/-- The start index of the Python slice `a[k:]` on a list of length
`len`: a negative `k` counts from the end (clamped below at 0), a
non-negative `k` is clamped above at the length. -/
def pyStart (s : Int) (len : Nat) : Nat :=
  if s < 0 then ((len : Int) + s).toNat else min s.toNat len

/-- The windowing of `load_historical_data`: Python
`files[-days:] if len(files) > days else files` on a non-empty list,
`[]` on an empty one (the early return when no data files exist). -/
def loadWindow (days : Int) (files : List (String × SnapData)) :
    List (String × SnapData) :=
  if files.isEmpty then []
  else if (files.length : Int) > days then files.drop (pyStart (-days) files.length)
  else files

/-- One iteration of the `aggregate_all_data` loop: the values appended
to the six parallel lists for one historical entry. -/
structure AggRow where
  date : String
  total : Nat
  v4 : Nat
  v6 : Nat
  added : Nat
  removed : Nat
deriving DecidableEq

/-- The main loop of `aggregate_all_data`, carrying
`previous_prefixes` (`none` before the first iteration). -/
def aggLoop (prev : Option (List String)) :
    List (String × SnapData) → List AggRow
  | [] => []
  | e :: rest =>
    let cur := extractPrefixes e.2
    let split := separate_ipv4_ipv6 cur
    let d : Nat × Nat :=
      match prev with
      | none => (0, 0)
      | some p => ((setDiff cur p).length, (setDiff p cur).length)
    { date := e.1, total := cur.length, v4 := split.1.length,
      v6 := split.2.length, added := d.1, removed := d.2 } ::
      aggLoop (some cur) rest

/-- The `summary` sub-dictionary of the metrics. -/
structure Summary where
  total_data_points : Nat
  dateRangeStart : Option String
  dateRangeEnd : Option String
  current_total : Nat
  current_ipv4 : Nat
  current_ipv6 : Nat
  total_growth : Int
  avg_daily_change : ℚ
deriving DecidableEq

/-- The metrics dictionary built by `aggregate_all_data`.  The
`metadata` sub-dictionary (a wall-clock generation timestamp and two
constant strings) is not modelled. -/
structure Metrics where
  timestamps : List String
  total_ranges : List Nat
  ipv4_counts : List Nat
  ipv6_counts : List Nat
  daily_added : List Nat
  daily_removed : List Nat
  summary : Summary
deriving DecidableEq

/-- `DataAggregatorService._get_empty_metrics`. -/
def emptyMetrics : Metrics :=
  { timestamps := []
    total_ranges := []
    ipv4_counts := []
    ipv6_counts := []
    daily_added := []
    daily_removed := []
    summary :=
      { total_data_points := 0
        dateRangeStart := none
        dateRangeEnd := none
        current_total := 0
        current_ipv4 := 0
        current_ipv6 := 0
        total_growth := 0
        avg_daily_change := 0 } }

/-- The metrics dictionary assembled after the loop of
`aggregate_all_data`, with each Python guard (`x[-1] if x else …`,
`… if len(total_ranges) > 1 else 0`, `… if daily_added else 0`)
reproduced. -/
def buildMetrics (rows : List AggRow) : Metrics :=
  let timestamps := rows.map (·.date)
  let total_ranges := rows.map (·.total)
  let ipv4_counts := rows.map (·.v4)
  let ipv6_counts := rows.map (·.v6)
  let daily_added := rows.map (·.added)
  let daily_removed := rows.map (·.removed)
  { timestamps := timestamps
    total_ranges := total_ranges
    ipv4_counts := ipv4_counts
    ipv6_counts := ipv6_counts
    daily_added := daily_added
    daily_removed := daily_removed
    summary :=
      { total_data_points := timestamps.length
        dateRangeStart := timestamps.head?
        dateRangeEnd := timestamps.getLast?
        current_total := total_ranges.getLastD 0
        current_ipv4 := ipv4_counts.getLastD 0
        current_ipv6 := ipv6_counts.getLastD 0
        total_growth :=
          if 1 < total_ranges.length then
            (total_ranges.getLastD 0 : Int) - (total_ranges.headD 0 : Int)
          else 0
        avg_daily_change :=
          if daily_added.isEmpty then 0
          else (daily_added.sum : ℚ) / (daily_added.length : ℚ) } }

/-- `DataAggregatorService.aggregate_all_data` over the already-loaded
history list: window the history, return the empty metrics when nothing
is left, otherwise run the loop and assemble the metrics. -/
def aggregate (days : Int) (hist : List (String × SnapData)) : Metrics :=
  let h := loadWindow days hist
  if h.isEmpty then emptyMetrics else buildMetrics (aggLoop none h)

/-! ### Extraction with an open JSON value type

The Python extractors read `p['ipv4Prefix']` / `p['ipv6Prefix']` without
any type check, so a snapshot entry whose prefix value is not a string
flows straight into the result set.  To analyse that behaviour the value
type is kept open here: a prefix field holds either a string or a
number. -/

/-- A JSON scalar as it can appear in a prefix field. -/
inductive JVal where
  | str (s : String)
  | num (n : Int)
deriving DecidableEq

/-- A prefix entry with unconstrained field values. -/
structure JEntry where
  ipv4Val : Option JVal
  ipv6Val : Option JVal
deriving DecidableEq

/-- A snapshot over unconstrained entry values. -/
structure JSnap where
  cloud : Option (List JEntry)
  goog : Option (List JEntry)
deriving DecidableEq

/-- The values one unconstrained entry contributes, in visit order. -/
def jEntryVals (e : JEntry) : List JVal :=
  (match e.ipv4Val with | some v => [v] | none => []) ++
  (match e.ipv6Val with | some v => [v] | none => [])

/-- `DataAggregatorService.extract_prefixes` over unconstrained values:
every present field value is added to the set unconditionally, exactly
as the Python `prefixes.add(prefix_entry['ipv4Prefix'])` does. -/
def extractPrefixesJV (d : JSnap) : List JVal :=
  ((match d.cloud with | some es => (es.map jEntryVals).flatten | none => []) ++
   (match d.goog with | some es => (es.map jEntryVals).flatten | none => [])).dedup

/-! ### Firewall rule generator (`FirewallRulesGenerator`)

Each of the nine generators is a pure function of the sorted IPv4 list,
the sorted IPv6 list, and the formatted `datetime.now()` string `t`
(those generators that print no timestamp simply ignore `t`).  The three
JSON formats build the exact string `json.dumps(value, indent=2)`
produces, via the `Json` syntax tree and `dumps` below. -/

/-- JSON values as the generators build them. -/
inductive Json where
  | str (s : String)
  | nat (n : Nat)
  | arr (xs : List Json)
  | obj (kvs : List (String × Json))

/-- Four lower-case hex digits, as in Python `'\\u%04x'`. -/
def hex4 (n : Nat) : String :=
  let ds := Nat.toDigits 16 n
  let pad := List.replicate (4 - ds.length) '0'
  String.mk (pad ++ ds)

/-- Escaping of one character as `json.dumps` (default `ensure_ascii`)
performs it: the two-character escapes for quote, backslash and the five
control shorthands, `\\u00xx` for the remaining control characters, the
character itself for printable ASCII, and `\\uXXXX` (surrogate pairs
above the BMP) for non-ASCII. -/
def jsonEscapeChar (c : Char) : String :=
  if c = '"' then "\\\""
  else if c = '\\' then "\\\\"
  else if c = '\x08' then "\\b"
  else if c = '\x0c' then "\\f"
  else if c = '\n' then "\\n"
  else if c = '\r' then "\\r"
  else if c = '\t' then "\\t"
  else if c.toNat < 0x20 then "\\u" ++ hex4 c.toNat
  else if c.toNat < 0x80 then String.singleton c
  else if c.toNat < 0x10000 then "\\u" ++ hex4 c.toNat
  else
    let m := c.toNat - 0x10000
    "\\u" ++ hex4 (0xD800 + m / 0x400) ++ "\\u" ++ hex4 (0xDC00 + m % 0x400)

/-- A JSON string literal with its quotes. -/
def jsonQuote (s : String) : String :=
  "\"" ++ String.join (s.toList.map jsonEscapeChar) ++ "\""

/-- Indentation of `lvl` levels at two spaces each. -/
def ind (lvl : Nat) : String := String.mk (List.replicate (lvl * 2) ' ')

mutual

/-- `json.dumps(v, indent=2)` rendered at nesting level `lvl`: empty
containers on one line, otherwise one item per line, items separated by
a comma, keys separated from values by a colon and a space, the closing
bracket on the parent's indentation. -/
def dumps (lvl : Nat) : Json → String
  | .str s => jsonQuote s
  | .nat n => toString n
  | .arr [] => "[]"
  | .arr (x :: xs) =>
    "[\n" ++ String.intercalate ",\n" (dumpsItems (lvl + 1) (x :: xs)) ++
      "\n" ++ ind lvl ++ "]"
  | .obj [] => "\x7b\x7d"
  | .obj (kv :: kvs) =>
    "\x7b\n" ++ String.intercalate ",\n" (dumpsPairs (lvl + 1) (kv :: kvs)) ++
      "\n" ++ ind lvl ++ "\x7d"

/-- The rendered array items, each on its own indented line. -/
def dumpsItems (lvl : Nat) : List Json → List String
  | [] => []
  | x :: xs => (ind lvl ++ dumps lvl x) :: dumpsItems lvl xs

/-- The rendered object members, each on its own indented line. -/
def dumpsPairs (lvl : Nat) : List (String × Json) → List String
  | [] => []
  | (k, v) :: kvs =>
    (ind lvl ++ jsonQuote k ++ ": " ++ dumps lvl v) :: dumpsPairs lvl kvs

end

/-- `FirewallRulesGenerator.generate_iptables`. -/
def generate_iptables (v4 v6 : List String) (t : String) : String :=
  let rules :=
    ["#!/bin/bash",
     "# Google IP Ranges - iptables rules",
     s!"# Generated: {t}",
     "# Allow incoming traffic from Google IPs",
     "",
     "# IPv4 Rules"] ++
    v4.map (fun ip => s!"iptables -A INPUT -s {ip} -j ACCEPT") ++
    ["", "# IPv6 Rules"] ++
    v6.map (fun ip => s!"ip6tables -A INPUT -s {ip} -j ACCEPT")
  String.intercalate "\n" rules

/-- `FirewallRulesGenerator.generate_aws_security_group` (prints no
timestamp, so `t` is unused). -/
def generate_aws_security_group (v4 v6 : List String) (_t : String) : String :=
  dumps 0 (.obj
    [("Description", .str "Google IP Ranges Security Group"),
     ("GroupName", .str "google-ip-ranges"),
     ("IpPermissions", .arr
       (v4.map (fun ip => .obj
          [("IpProtocol", .str "-1"),
           ("IpRanges", .arr [.obj
              [("CidrIp", .str ip),
               ("Description", .str "Google IP Range")]])]) ++
        v6.map (fun ip => .obj
          [("IpProtocol", .str "-1"),
           ("Ipv6Ranges", .arr [.obj
              [("CidrIpv6", .str ip),
               ("Description", .str "Google IPv6 Range")]])])))])

/-- One Azure NSG security rule as `generate_azure_nsg` builds it. -/
structure NsgRule where
  name : String
  protocol : String
  sourcePortRange : String
  destinationPortRange : String
  sourceAddressPfx : String
  destinationAddressPfx : String
  access : String
  priority : Nat
  direction : String
deriving DecidableEq

/-- The IPv4 rule built for list position `idx` (base priority 100). -/
def mkNsgRule4 (idx : Nat) (ip : String) : NsgRule :=
  let n := idx + 1
  { name := s!"AllowGoogleIPv4_{n}", protocol := "*", sourcePortRange := "*",
    destinationPortRange := "*", sourceAddressPfx := ip,
    destinationAddressPfx := "*", access := "Allow",
    priority := 100 + idx, direction := "Inbound" }

/-- The IPv6 rule built for list position `idx` (base priority 2000). -/
def mkNsgRule6 (idx : Nat) (ip : String) : NsgRule :=
  let n := idx + 1
  { name := s!"AllowGoogleIPv6_{n}", protocol := "*", sourcePortRange := "*",
    destinationPortRange := "*", sourceAddressPfx := ip,
    destinationAddressPfx := "*", access := "Allow",
    priority := 2000 + idx, direction := "Inbound" }

/-- The IPv4 block of NSG rules, in input order. -/
def azureRules4 (v4 : List String) : List NsgRule :=
  v4.enum.map (fun p => mkNsgRule4 p.1 p.2)

/-- The IPv6 block of NSG rules, in input order. -/
def azureRules6 (v6 : List String) : List NsgRule :=
  v6.enum.map (fun p => mkNsgRule6 p.1 p.2)

/-- The JSON object for one NSG rule, fields in source order. -/
def nsgRuleJson (r : NsgRule) : Json :=
  .obj
    [("name", .str r.name),
     ("properties", .obj
       [("protocol", .str r.protocol),
        ("sourcePortRange", .str r.sourcePortRange),
        ("destinationPortRange", .str r.destinationPortRange),
        ("sourceAddressPrefix", .str r.sourceAddressPfx),
        ("destinationAddressPrefix", .str r.destinationAddressPfx),
        ("access", .str r.access),
        ("priority", .nat r.priority),
        ("direction", .str r.direction)])]

/-- `FirewallRulesGenerator.generate_azure_nsg` (prints no timestamp). -/
def generate_azure_nsg (v4 v6 : List String) (_t : String) : String :=
  dumps 0 (.obj
    [("securityRules",
      .arr ((azureRules4 v4 ++ azureRules6 v6).map nsgRuleJson))])

/-- The CIDR-to-wildcard-mask conversion inlined in
`generate_cisco_acl`: `wildcard_bits = 32 - n` and each octet is
`(0xFFFFFFFF >> (32 - wildcard_bits)) >> (i * 8) & 0xFF` for
`i = 3, 2, 1, 0`. -/
def wildcardMask (pfxLen : Nat) : String :=
  let wildcardBits := 32 - pfxLen
  String.intercalate "." (([3, 2, 1, 0] : List Nat).map
    (fun i => toString (((0xFFFFFFFF >>> (32 - wildcardBits)) >>> (i * 8)) % 256)))

/-- One IPv4 permit line of the Cisco ACL.  The Python
`network, prefix = ip.split('/')` and `int(prefix)` raise on a
malformed CIDR; this model defaults instead — only well-formed
`address/prefixlen` inputs are analysed. -/
def ciscoPermitLine (ip : String) : String :=
  let parts := ip.splitOn "/"
  let network := parts.headD ""
  let w := wildcardMask (((parts.getD 1 "").toNat?).getD 0)
  s!" permit ip {network} {w} any"

/-- `FirewallRulesGenerator.generate_cisco_acl`. -/
def generate_cisco_acl (v4 v6 : List String) (t : String) : String :=
  String.intercalate "\n"
    (["! Google IP Ranges - Cisco ACL",
      s!"! Generated: {t}",
      "!",
      "ip access-list extended GOOGLE-IPS-V4"] ++
     v4.map ciscoPermitLine ++
     ["!", "ipv6 access-list GOOGLE-IPS-V6"] ++
     v6.map (fun ip => s!" permit ipv6 {ip} any") ++
     ["!"])

/-- `FirewallRulesGenerator.generate_pfsense`. -/
def generate_pfsense (v4 v6 : List String) (t : String) : String :=
  String.intercalate "\n"
    (["# Google IP Ranges - pfSense Alias",
      s!"# Generated: {t}",
      "# Import via Firewall > Aliases > Import",
      "",
      "# IPv4 Networks"] ++ v4 ++
     ["", "# IPv6 Networks"] ++ v6)

/-- `FirewallRulesGenerator.generate_plain_text`. -/
def generate_plain_text (v4 v6 : List String) (t : String) : String :=
  let n4 := v4.length
  let n6 := v6.length
  String.intercalate "\n"
    (["Google IP Ranges - Plain Text",
      s!"Generated: {t}",
      s!"Total IPv4: {n4}",
      s!"Total IPv6: {n6}",
      "",
      "=== IPv4 Ranges ==="] ++ v4 ++
     ["", "=== IPv6 Ranges ==="] ++ v6)

/-- `FirewallRulesGenerator.generate_csv` (prints no timestamp). -/
def generate_csv (v4 v6 : List String) (_t : String) : String :=
  String.intercalate "\n"
    (["type,prefix,description"] ++
     v4.map (fun ip => s!"IPv4,{ip},Google IP Range") ++
     v6.map (fun ip => s!"IPv6,{ip},Google IP Range"))

/-- `FirewallRulesGenerator.generate_json_export`. -/
def generate_json_export (v4 v6 : List String) (t : String) : String :=
  let n4 := v4.length
  let n6 := v6.length
  dumps 0 (.obj
    [("generated_at", .str t),
     ("total_ranges", .nat (n4 + n6)),
     ("ipv4", .obj [("count", .nat n4), ("ranges", .arr (v4.map Json.str))]),
     ("ipv6", .obj [("count", .nat n6), ("ranges", .arr (v6.map Json.str))])])

/-- `FirewallRulesGenerator.generate_mikrotik`. -/
def generate_mikrotik (v4 v6 : List String) (t : String) : String :=
  String.intercalate "\n"
    (["# Google IP Ranges - MikroTik RouterOS",
      s!"# Generated: {t}",
      "",
      "# Create address list",
      "/ip firewall address-list"] ++
     v4.map (fun ip => s!"add list=google-ips address={ip} comment=\"Google IPv4\"") ++
     ["", "/ipv6 firewall address-list"] ++
     v6.map (fun ip => s!"add list=google-ips-v6 address={ip} comment=\"Google IPv6\""))

/-- The nine output formats of `generate_all`. -/
inductive Format where
  | iptables
  | awsSecurityGroup
  | azureNsg
  | ciscoAcl
  | pfsense
  | mikrotik
  | plainText
  | csv
  | jsonExport
deriving DecidableEq

/-- Dispatch of one projection call: the generator for `fmt` applied to
the IPv4 list, the IPv6 list and the generation timestamp. -/
def project (fmt : Format) (v4 v6 : List String) (t : String) : String :=
  match fmt with
  | .iptables => generate_iptables v4 v6 t
  | .awsSecurityGroup => generate_aws_security_group v4 v6 t
  | .azureNsg => generate_azure_nsg v4 v6 t
  | .ciscoAcl => generate_cisco_acl v4 v6 t
  | .pfsense => generate_pfsense v4 v6 t
  | .mikrotik => generate_mikrotik v4 v6 t
  | .plainText => generate_plain_text v4 v6 t
  | .csv => generate_csv v4 v6 t
  | .jsonExport => generate_json_export v4 v6 t

/-- The subnet mask for a prefix length, written from the spec's words:
the top `n` bits of a 32-bit word set. -/
def subnetMask (n : Nat) : Nat := 2 ^ 32 - 2 ^ (32 - n)

/-- Dotted-decimal rendering of a 32-bit word, most-significant octet
first. -/
def dottedQuad (w : Nat) : String :=
  String.intercalate "." (([3, 2, 1, 0] : List Nat).map
    (fun i => toString ((w >>> (i * 8)) % 256)))

/-- The wildcard mask as the spec defines it: the bitwise complement of
the standard subnet mask, as four decimal octets, most-significant octet
first. -/
def wildcardMaskSpec (n : Nat) : String :=
  dottedQuad (2 ^ 32 - 1 - subnetMask n)

/-! ### Helper lemmas -/

/-- Sorting does not change the number of elements. -/
lemma sortStr_length (l : List String) : (sortStr l).length = l.length :=
  List.length_insertionSort _ l

/-- A filter and its complementary filter partition a list's length. -/
lemma length_filter_partition (l : List String) (p : String → Bool) :
    (l.filter (fun a => !(p a))).length + (l.filter p).length = l.length := by
  have h := List.length_eq_length_filter_add (l := l) p
  omega

/-- The dates of the aggregation rows are the dates of the processed
entries, in order, whatever the carried previous set is. -/
lemma aggLoop_map_date (l : List (String × SnapData)) :
    ∀ prev, (aggLoop prev l).map (·.date) = l.map Prod.fst := by
  induction l with
  | nil => intro prev; rfl
  | cons e rest ih => intro prev; simpa [aggLoop] using ih _

/-- Every aggregation row splits its day's total count exactly into the
IPv4 and the IPv6 count. -/
lemma aggLoop_partition (l : List (String × SnapData)) :
    ∀ prev, ∀ r ∈ aggLoop prev l, r.v4 + r.v6 = r.total := by
  induction l with
  | nil => intro _ r hr; cases hr
  | cons e rest ih =>
    intro prev r hr
    rcases List.mem_cons.mp hr with h | h
    · subst h
      show (separate_ipv4_ipv6 (extractPrefixes e.2)).1.length +
          (separate_ipv4_ipv6 (extractPrefixes e.2)).2.length =
          (extractPrefixes e.2).length
      simp only [separate_ipv4_ipv6, sortStr_length]
      exact length_filter_partition _ _
    · exact ih _ r h

/-- For a positive window the Python slice keeps exactly the most
recent `days` entries (all of them when fewer exist). -/
lemma loadWindow_pos (days : Int) (hist : List (String × SnapData))
    (hd : 0 < days) :
    loadWindow days hist = hist.drop (hist.length - days.toNat) := by
  by_cases hne : hist.isEmpty
  · rw [List.isEmpty_iff] at hne
    simp [loadWindow, hne]
  · rw [loadWindow, if_neg (by simp [hne])]
    by_cases hlen : (hist.length : Int) > days
    · rw [if_pos hlen, pyStart, if_pos (by omega)]
      congr 1
      omega
    · rw [if_neg hlen]
      have : hist.length - days.toNat = 0 := by omega
      rw [this, List.drop_zero]

/-- The priorities of the IPv4 NSG block, by list position. -/
lemma azureRules4_priorities (v4 : List String) :
    (azureRules4 v4).map (·.priority) =
      (List.range v4.length).map (fun i => 100 + i) := by
  rw [azureRules4, List.map_map, ← List.enum_map_fst v4, List.map_map]
  rfl

/-- The priorities of the IPv6 NSG block, by list position. -/
lemma azureRules6_priorities (v6 : List String) :
    (azureRules6 v6).map (·.priority) =
      (List.range v6.length).map (fun i => 2000 + i) := by
  rw [azureRules6, List.map_map, ← List.enum_map_fst v6, List.map_map]
  rfl

/-! ### Claim theorems -/

/-- C1: for each of the nine rule formats, projection is a pure
function of the IPv4 list, the IPv6 list and the generation timestamp:
two calls with identical inputs, including an identical timestamp,
produce byte-identical output documents. -/
theorem project_deterministic (fmt : Format) (v4 v6 v4' v6' : List String)
    (t t' : String) (h4 : v4 = v4') (h6 : v6 = v6') (ht : t = t') :
    project fmt v4 v6 t = project fmt v4' v6' t' := by
  subst h4; subst h6; subst ht; rfl

/-- Witness for C1 at a concrete format and input. -/
theorem project_deterministic_witness :
    project Format.azureNsg ["8.8.8.0/24"] ["2001:db8::/32"] "2025-01-01 00:00:00 UTC"
      = project Format.azureNsg ["8.8.8.0/24"] ["2001:db8::/32"] "2025-01-01 00:00:00 UTC" :=
  project_deterministic Format.azureNsg _ _ _ _ _ _ rfl rfl rfl

/-- C2: for every prefix length up to 32, the CIDR-to-wildcard-mask
conversion of the extended ACL generator yields the dotted-decimal
bitwise complement of the standard subnet mask, most-significant octet
first; in particular 32, 24, 16 and 0 give the four stated masks. -/
theorem wildcardMask_correct :
    (∀ n : Fin 33, wildcardMask n.val = wildcardMaskSpec n.val) ∧
    wildcardMask 32 = "0.0.0.0" ∧ wildcardMask 24 = "0.0.0.255" ∧
    wildcardMask 16 = "0.0.255.255" ∧ wildcardMask 0 = "255.255.255.255" := by
  decide

/-- C5: aggregation over an empty history returns, totally, the empty
metrics: six empty sequences and a summary with zero data points, null
date bounds, zero current counts, zero growth and zero average daily
change. -/
theorem aggregate_empty_history (days : Int) :
    (aggregate days []).timestamps = [] ∧
    (aggregate days []).total_ranges = [] ∧
    (aggregate days []).ipv4_counts = [] ∧
    (aggregate days []).ipv6_counts = [] ∧
    (aggregate days []).daily_added = [] ∧
    (aggregate days []).daily_removed = [] ∧
    (aggregate days []).summary.total_data_points = 0 ∧
    (aggregate days []).summary.dateRangeStart = none ∧
    (aggregate days []).summary.dateRangeEnd = none ∧
    (aggregate days []).summary.current_total = 0 ∧
    (aggregate days []).summary.current_ipv4 = 0 ∧
    (aggregate days []).summary.current_ipv6 = 0 ∧
    (aggregate days []).summary.total_growth = 0 ∧
    (aggregate days []).summary.avg_daily_change = 0 :=
  ⟨rfl, rfl, rfl, rfl, rfl, rfl, rfl, rfl, rfl, rfl, rfl, rfl, rfl, rfl⟩

/-- C8: the extractor performs no type check on prefix values — a
snapshot entry whose `ipv4Prefix` value is the number 42 is neither
skipped nor surfaced as a malformed-entry condition: the non-string
value is silently included in the resulting prefix set. -/
theorem extract_includes_nonstring_value :
    extractPrefixesJV ⟨some [⟨some (JVal.num 42), none⟩], none⟩ =
      [JVal.num 42] := by
  decide

/-- C9: diff inverse symmetry — for any two datasets the added list of
one comparison direction equals the removed list of the reverse
direction, and conversely. -/
theorem compare_data_inverse_symmetry (a b : Option SnapData) :
    (compare_data a b).added = (compare_data b a).removed ∧
    (compare_data a b).removed = (compare_data b a).added := by
  cases a <;> cases b <;> exact ⟨rfl, rfl⟩

/-- An IPv4 input list long enough to push the IPv4 priority block into
the IPv6 priority base. -/
def bigV4 : List String := List.replicate 1901 "8.8.8.0/24"

/-- C3 (counterexample): with 1901 IPv4 prefixes and one IPv6 prefix
the priority 2000 is assigned in both family blocks, so the two
priority sets are not disjoint for these input list lengths. -/
theorem azure_nsg_priority_overlap :
    2000 ∈ (azureRules4 bigV4).map (·.priority) ∧
    2000 ∈ (azureRules6 ["2001:db8::/32"]).map (·.priority) := by
  constructor
  · rw [azureRules4_priorities]
    have hlen : bigV4.length = 1901 := by
      rw [bigV4, List.length_replicate]
    rw [hlen]
    exact List.mem_map.mpr ⟨1900, List.mem_range.mpr (by omega), by omega⟩
  · rw [azureRules6_priorities]
    decide

/-- C3 (amended): the IPv4 rule at list position idx receives priority
100 + idx and the IPv6 rule at list position idx receives priority
2000 + idx; the two priority sets are disjoint whenever the IPv4 list
has at most 1900 elements (with 1901 or more the IPv4 block reaches
priority 2000 and collides with the IPv6 base). -/
theorem azure_nsg_priorities (v4 v6 : List String) :
    ((azureRules4 v4).map (·.priority) =
      (List.range v4.length).map (fun i => 100 + i)) ∧
    ((azureRules6 v6).map (·.priority) =
      (List.range v6.length).map (fun i => 2000 + i)) ∧
    (v4.length ≤ 1900 →
      ∀ p ∈ (azureRules4 v4).map (·.priority),
        p ∉ (azureRules6 v6).map (·.priority)) := by
  refine ⟨azureRules4_priorities v4, azureRules6_priorities v6, ?_⟩
  intro hlen p hp hq
  rw [azureRules4_priorities] at hp
  rw [azureRules6_priorities] at hq
  obtain ⟨i, hi, hpi⟩ := List.mem_map.mp hp
  obtain ⟨j, hj, hqj⟩ := List.mem_map.mp hq
  rw [List.mem_range] at hi hj
  omega

/-- Witness for C3 (amended) at one IPv4 and one IPv6 prefix. -/
theorem azure_nsg_priorities_witness :
    (azureRules4 ["8.8.8.0/24"]).map (·.priority) = [100] ∧
    100 ∉ (azureRules6 ["2001:db8::/32"]).map (·.priority) := by
  constructor
  · have h := (azure_nsg_priorities ["8.8.8.0/24"] ["2001:db8::/32"]).1
    simpa using h
  · exact (azure_nsg_priorities ["8.8.8.0/24"] ["2001:db8::/32"]).2.2
      (by decide) 100 (by decide)

/-- A one-entry snapshot used as a concrete input. -/
def snapOne : SnapData := ⟨some [⟨some "8.8.8.0/24", none⟩], none⟩

/-- C4 (counterexample): diffing the bootstrap case against a current
snapshot holding one prefix reports `total_current = 0`, not the number
of prefixes in the current set. -/
theorem compare_bootstrap_counterexample :
    (compare_data none (some snapOne)).total_current ≠
      (extractPrefixes snapOne).length ∧
    (extractPrefixes snapOne).length = 1 ∧
    (compare_data none (some snapOne)).total_current = 0 := by
  decide

/-- C4 (amended): with an absent previous dataset the differ returns
the fixed bootstrap dictionary: `added` and `removed` empty,
`total_current = 0` regardless of the current snapshot's contents, no
`total_previous` key, and `has_changes = false`. -/
theorem compare_data_bootstrap (cur : Option SnapData) :
    (compare_data none cur).added = [] ∧
    (compare_data none cur).removed = [] ∧
    (compare_data none cur).total_current = 0 ∧
    (compare_data none cur).total_previous = none ∧
    (compare_data none cur).has_changes = false := by
  cases cur <;> exact ⟨rfl, rfl, rfl, rfl, rfl⟩

/-- Aggregation over a non-empty window takes the non-bootstrap branch. -/
lemma aggregate_eq_build (days : Int) (hist : List (String × SnapData))
    (h : loadWindow days hist ≠ []) :
    aggregate days hist = buildMetrics (aggLoop none (loadWindow days hist)) := by
  simp only [aggregate]
  rw [if_neg]
  simpa [List.isEmpty_iff] using h

/-- C6: for every non-empty history and positive window, aggregation
restricts to at most the most recent window-many snapshots (a suffix of
the history) and records zero added and zero removed for the first
in-window snapshot, even when earlier snapshots exist outside the
window; in particular a single-snapshot history yields a one-point
series with both deltas zero. -/
theorem aggregate_window_bootstrap (days : Int)
    (hist : List (String × SnapData)) (hd : 0 < days) (hne : hist ≠ []) :
    (aggregate days hist).timestamps.length ≤ days.toNat ∧
    (aggregate days hist).timestamps <:+ hist.map Prod.fst ∧
    (aggregate days hist).daily_added.head? = some 0 ∧
    (aggregate days hist).daily_removed.head? = some 0 ∧
    (∀ e : String × SnapData,
      (aggregate days [e]).daily_added = [0] ∧
      (aggregate days [e]).daily_removed = [0]) := by
  have hw : loadWindow days hist = hist.drop (hist.length - days.toNat) :=
    loadWindow_pos days hist hd
  have hlen0 : hist.length ≠ 0 := fun h0 => hne (List.length_eq_zero.mp h0)
  have hwne : loadWindow days hist ≠ [] := by
    rw [hw]
    intro hcon
    have hlen := congrArg List.length hcon
    rw [List.length_drop] at hlen
    simp only [List.length_nil] at hlen
    omega
  have hb := aggregate_eq_build days hist hwne
  have hts : (aggregate days hist).timestamps =
      (loadWindow days hist).map Prod.fst := by
    rw [hb]
    exact aggLoop_map_date _ none
  refine ⟨?_, ?_, ?_, ?_, ?_⟩
  · rw [hts, List.length_map, hw, List.length_drop]
    omega
  · rw [hts]
    exact (hw ▸ List.drop_suffix _ hist).map Prod.fst
  · obtain ⟨e0, rest, hcons⟩ := List.exists_cons_of_ne_nil hwne
    rw [hb, hcons]
    rfl
  · obtain ⟨e0, rest, hcons⟩ := List.exists_cons_of_ne_nil hwne
    rw [hb, hcons]
    rfl
  · intro e
    have hw1 : loadWindow days [e] = [e] := by
      rw [loadWindow_pos days [e] hd]
      have h0 : ([e] : List (String × SnapData)).length - days.toNat = 0 := by
        simp only [List.length_singleton]
        omega
      rw [h0, List.drop_zero]
    have hb1 := aggregate_eq_build days [e] (by rw [hw1]; exact List.cons_ne_nil _ _)
    rw [hb1, hw1]
    exact ⟨rfl, rfl⟩

/-- Witness for C6 on a one-snapshot history with window 90. -/
theorem aggregate_window_bootstrap_witness :
    (aggregate 90 [("2025-01-01", snapOne)]).daily_added.head? = some 0 ∧
    (aggregate 90 [("2025-01-01", snapOne)]).daily_removed.head? = some 0 :=
  ⟨(aggregate_window_bootstrap 90 [("2025-01-01", snapOne)] (by decide)
      (by simp)).2.2.1,
   (aggregate_window_bootstrap 90 [("2025-01-01", snapOne)] (by decide)
      (by simp)).2.2.2.1⟩

/-- C7: the aggregator performs no window validation — a non-positive
window is accepted without any error: window 0 processes the entire
history (the slice `[-0:]` keeps everything) and window -1 silently
drops the oldest snapshot and aggregates the rest, instead of the call
failing with an invalid-window error. -/
theorem aggregate_accepts_nonpositive_window :
    (aggregate 0 [("2025-01-01", snapOne)]).summary.total_data_points = 1 ∧
    (aggregate (-1) [("2025-01-01", snapOne), ("2025-01-02", snapOne)]).timestamps
      = ["2025-01-02"] := by
  decide

/-- C10: in every aggregator output the day's IPv4 count plus the
day's IPv6 count equals the day's total count at every index:
classifying each prefix by presence of a colon partitions the canonical
prefix set exhaustively and exclusively into the two address families. -/
theorem aggregate_family_partition (days : Int)
    (hist : List (String × SnapData)) (i : Nat)
    (hi : i < (aggregate days hist).total_ranges.length) :
    (aggregate days hist).ipv4_counts.getD i 0 +
      (aggregate days hist).ipv6_counts.getD i 0 =
      (aggregate days hist).total_ranges.getD i 0 := by
  by_cases hwe : loadWindow days hist = []
  · exfalso
    have : aggregate days hist = emptyMetrics := by
      simp only [aggregate, hwe]
      rfl
    rw [this] at hi
    exact Nat.not_lt_zero i hi
  · have hb := aggregate_eq_build days hist hwe
    rw [hb] at hi ⊢
    set rows := aggLoop none (loadWindow days hist) with hrows
    change i < (rows.map (·.total)).length at hi
    rw [List.length_map] at hi
    change (rows.map (·.v4)).getD i 0 + (rows.map (·.v6)).getD i 0 =
      (rows.map (·.total)).getD i 0
    rw [List.getD_eq_getElem?_getD, List.getD_eq_getElem?_getD,
      List.getD_eq_getElem?_getD, List.getElem?_map, List.getElem?_map,
      List.getElem?_map, List.getElem?_eq_getElem hi]
    simp only [Option.map_some', Option.getD_some]
    exact aggLoop_partition _ none _ (List.getElem_mem hi)

/-- Witness for C10 at index 0 of a one-snapshot aggregation. -/
theorem aggregate_family_partition_witness :
    0 < (aggregate 90 [("2025-01-01", snapOne)]).total_ranges.length ∧
    (aggregate 90 [("2025-01-01", snapOne)]).ipv4_counts.getD 0 0 +
      (aggregate 90 [("2025-01-01", snapOne)]).ipv6_counts.getD 0 0 =
      (aggregate 90 [("2025-01-01", snapOne)]).total_ranges.getD 0 0 :=
  ⟨by decide, aggregate_family_partition 90 _ 0 (by decide)⟩

end GIPM
